import Mathlib

/-!
# VideoTube backend: user controller and auth middleware

A shallow embedding of `src/controllers/user.controller.js` and
`src/middlewares/auth.middleware.js`.

Each request handler is an async function over a request, the user collection
and a few collaborators (the upload service, the token library, the methods of
the user model).  It is embedded as a function from the collection and the
request to an `Outcome`: what the handler returned or threw, the collection
afterwards, and the calls it made on its collaborators, in order.

The handlers are the functions given to `AsyncHandler`; the wrapper itself
(utils/AsyncHandler.js) and the routes are not among the sources, and what is
embedded is the wrapped function: a value it throws is the `error` of its
outcome.
-/

namespace VideoTube

/-! ## Values thrown -/

/-- What a handler can throw: an `ApiError(statusCode, message)` built by the
controller itself, a `TypeError` of the JavaScript runtime, or any other
`Error` thrown by a library (the store, the token library). -/
inductive Failure where
  | apiError (statusCode : Nat) (message : String)
  | typeError (message : String)
  | error (message : String)
deriving DecidableEq, Repr

/-- The `message` property of a thrown value. -/
def Failure.message : Failure → String
  | .apiError _ m => m
  | .typeError m => m
  | .error m => m

/-! ## JavaScript strings -/

/-- The code points `String.prototype.trim` removes: WhiteSpace and
LineTerminator of ECMAScript. -/
def isWhiteSpace (c : Char) : Bool :=
  let n := c.toNat
  n == 0x09 || n == 0x0A || n == 0x0B || n == 0x0C || n == 0x0D || n == 0x20 ||
  n == 0xA0 || n == 0x1680 || (0x2000 ≤ n && n ≤ 0x200A) || n == 0x2028 ||
  n == 0x2029 || n == 0x202F || n == 0x205F || n == 0x3000 || n == 0xFEFF

/-- The built-in `String.prototype.trim`: white space removed from both ends. -/
def trim (s : String) : String :=
  String.mk ((s.data.dropWhile isWhiteSpace).reverse.dropWhile isWhiteSpace).reverse

/-- The method `replace(pat, rep)` on lists of characters, for a string pattern: the
first occurrence of `pat` is replaced, the rest is kept. -/
def replaceChars (pat rep : List Char) : List Char → List Char
  | [] => if pat = [] then rep else []
  | c :: cs =>
    if pat.isPrefixOf (c :: cs) then rep ++ (c :: cs).drop pat.length
    else c :: replaceChars pat rep cs

/-- The built-in `String.prototype.replace` with a string pattern. -/
def replace (s pat rep : String) : String :=
  String.mk (replaceChars pat.data rep.data s.data)

/-- Truthiness of a value that is `undefined` or a string: only a non-empty
string is truthy. -/
def truthy : Option String → Bool
  | some s => s != ""
  | none => false

/-- The operator `a || b` on values that are `undefined` or a string. -/
def jsOr (a b : Option String) : Option String :=
  if truthy a then a else b

/-! ## The user collection -/

/-- A user document.  A field that a document may lack is an `Option`. -/
structure UserDoc where
  _id : Nat
  fullName : Option String
  avatar : String
  coverImage : String
  email : Option String
  username : Option String
  password : Option String
  refreshToken : Option String
deriving DecidableEq, Repr

/-- The user collection: the documents in insertion order. -/
abbrev Store := List UserDoc

/-- The argument of `User.create` in `registerUser`. -/
structure NewUser where
  fullName : Option String
  avatar : String
  coverImage : String
  email : Option String
  username : String
  password : Option String
deriving DecidableEq, Repr

/-- Modelled from the spec: `User.findOne` of the user model (models/user.models.js
is not among the sources) for the filter `$or: [username, email]`; the first
document whose username is the given one or whose email is the given one.  An
absent value matches a document that lacks the field.  The values are compared
as they are given; whether the schema casts a filter first (lower-casing a
username, say) is not in the sources. -/
def User.findOne (db : Store) (username email : Option String) : Option UserDoc :=
  db.find? (fun d => d.username == username || d.email == email)

/-- Modelled from the spec: `User.findById` of the user model; the first document
with that `_id`, none for an `undefined` id. -/
def User.findById (db : Store) (id : Option Nat) : Option UserDoc :=
  match id with
  | none => none
  | some i => db.find? (fun d => d._id == i)

/-- The projection `.select("-password -refreshToken")`: the document without
those two fields. -/
def select (d : UserDoc) : UserDoc :=
  { d with password := none, refreshToken := none }

/-- Modelled from the spec: the `_id` the store gives a new document, one that
no stored document has. -/
def freshId (db : Store) : Nat :=
  (db.map UserDoc._id).foldr max 0 + 1

/-- Modelled from the spec: `User.create` of the user model, "a persistent
collection of user documents with uniqueness constraints on username/email,
password-hashing hook".  The insert is refused with a duplicate-key error when a
stored document has the same username or the same email; otherwise one document
is appended, with a fresh `_id`, the hashed password and no refresh token. -/
def User.create (hash : String → String) (db : Store) (n : NewUser) :
    Except Failure (Store × UserDoc) :=
  if db.any (fun d => d.username == some n.username || d.email == n.email) then
    .error (.error "E11000 duplicate key error")
  else
    let doc : UserDoc :=
      { _id := freshId db, fullName := n.fullName, avatar := n.avatar,
        coverImage := n.coverImage, email := n.email, username := some n.username,
        password := n.password.map hash, refreshToken := none }
    .ok (db ++ [doc], doc)

/-- Modelled from the spec: `user.save()` of the user model; the stored document
with the `_id` of `u` is replaced by `u`.  The password hook leaves a password
that was not modified. -/
def User.save : Store → UserDoc → Store
  | [], _ => []
  | d :: ds, u => if d._id == u._id then u :: ds else d :: User.save ds u

/-! ## Collaborators -/

/-- What `uploadOnCloudinary` resolves to on success: an object with a `url`. -/
structure UploadResult where
  url : String
deriving DecidableEq, Repr

/-- The payload `jwt.verify` returns; the handlers read only its `_id`. -/
structure JwtPayload where
  _id : Option Nat
deriving DecidableEq, Repr

/-- The collaborators of the handlers whose code is not among the sources:
built-ins of the runtime, methods of the user model, the upload helper, the token
library and the two secrets of the environment. -/
structure Collaborators where
  /-- The built-in `String.prototype.toLowerCase`. -/
  toLowerCase : String → String
  /-- The password-hashing hook of the user model. -/
  hashPassword : String → String
  /-- The method `user.isPasswordCorrect(password)`. -/
  isPasswordCorrect : UserDoc → Option String → Bool
  /-- The method `user.generateAccessToken()`. -/
  generateAccessToken : UserDoc → String
  /-- The method `user.generateRefreshToken()`. -/
  generateRefreshToken : UserDoc → String
  /-- The hosting service behind `uploadOnCloudinary`: the hosted file for a local
  file path, or `null` when the upload fails. -/
  cloudinaryUpload : String → Option UploadResult
  /-- The call `jwt.verify(token, secret)`: the payload, or the message of the
  error thrown. -/
  jwtVerify : String → String → Except String JwtPayload
  /-- The variable `process.env.ACCESS_TOKEN_SECRET`. -/
  ACCESS_TOKEN_SECRET : String
  /-- The variable `process.env.REFRESH_TOKEN_SECRET`. -/
  REFRESH_TOKEN_SECRET : String

/-- Modelled from the spec: the helper `uploadOnCloudinary` (utils/cloudinary.js is
not among the sources), "accepts a local file path, returns a hosted URL (or
failure)".  Given a path it answers what the hosting service answers for that
path; given no path there is nothing to upload and it answers the failure
`null`. -/
def uploadOnCloudinary (c : Collaborators) (localFilePath : Option String) :
    Option UploadResult :=
  match localFilePath with
  | none => none
  | some path => c.cloudinaryUpload path

/-! ## Requests and responses -/

/-- The fields of `req.body` the handlers read.  A field is absent or a string. -/
structure Body where
  fullName : Option String := none
  email : Option String := none
  username : Option String := none
  password : Option String := none
  refreshToken : Option String := none
deriving DecidableEq, Repr

/-- The fields of `req.cookies` the handlers read. -/
structure Cookies where
  accessToken : Option String := none
  refreshToken : Option String := none
deriving DecidableEq, Repr

/-- An uploaded file as the upload middleware describes it. -/
structure FileEntry where
  path : Option String
deriving DecidableEq, Repr

/-- The object `req.files`: per field name, the array of uploaded files, when the
field was sent. -/
structure Files where
  avatar : Option (List FileEntry) := none
  coverImage : Option (List FileEntry) := none
deriving DecidableEq, Repr

/-- A request as a handler receives it, behind the body and cookie parsers:
`req.body` and `req.cookies` are objects, `req.files` may be absent, and
`authorization` is the value of `req.header("Authorization")`. -/
structure Request where
  body : Body := {}
  cookies : Cookies := {}
  files : Option Files := none
  authorization : Option String := none
deriving DecidableEq, Repr

/-- The `data` of an `ApiResponse`, one shape per handler. -/
inductive Data where
  | user (createdUser : UserDoc)
  | login (user : Option UserDoc) (accessToken refreshToken : String)
  | tokens (accessToken refreshToken : String)
deriving DecidableEq, Repr

/-- The envelope `new ApiResponse(statusCode, data, message)`. -/
structure ApiResponse where
  statusCode : Nat
  data : Data
  message : String
deriving DecidableEq, Repr

/-- What a handler sent: `res.status(..)`, the cookies set by `res.cookie(..)` in
order (all with the same `options`), and the body given to `res.json(..)`. -/
structure Response where
  status : Nat
  cookies : List (String × String)
  json : ApiResponse
deriving DecidableEq, Repr

/-- A call a handler made on the store, on a user document or on the upload
helper. -/
inductive Effect where
  | findOne (username email : Option String)
  | findById (id : Option Nat)
  | create (doc : NewUser)
  | save (id : Nat)
  | upload (localFilePath : Option String)
  | generateAccessToken (id : Nat)
  | generateRefreshToken (id : Nat)
deriving DecidableEq, Repr

/-- The run of an async function: the value it resolved to or the value it threw,
the collection afterwards, and the calls it made. -/
structure Outcome (α : Type) where
  result : Except Failure α
  store : Store
  effects : List Effect

/-! ## The controller -/

/-- The message of `generateAccessAndRefreshToken`. -/
def tokenErrorMessage : String :=
  "Something went wrong while generating access and refresh Token!"

/-- The pair `generateAccessAndRefreshToken` returns. -/
structure Tokens where
  accessToken : String
  refreshToken : String
deriving DecidableEq, Repr

/-- The function `generateAccessAndRefreshToken(userId)`, lines 13-34.  With no
such user, `user.generateAccessToken()` throws on `null`, and the `catch` turns
every error into an `ApiError` of status 500. -/
def generateAccessAndRefreshToken (c : Collaborators) (db : Store) (userId : Nat) :
    Outcome Tokens :=
  match User.findById db (some userId) with
  | none =>
    { result := .error (.apiError 500 tokenErrorMessage), store := db,
      effects := [.findById (some userId)] }
  | some user =>
    let accessToken := c.generateAccessToken user
    let refreshToken := c.generateRefreshToken user
    let user1 : UserDoc := { user with refreshToken := some refreshToken }
    { result := .ok { accessToken := accessToken, refreshToken := refreshToken },
      store := User.save db user1,
      effects := [.findById (some userId), .generateAccessToken user._id,
                  .generateRefreshToken user._id, .save user1._id] }

/-- The expression `req.files?.avatar[0]?.path` of line 63: `undefined` when
`req.files` is absent, a `TypeError` when `req.files` has no `avatar` (indexing
`undefined`), else the path of the first file, if any. -/
def avatarLocalPath (files : Option Files) : Except Failure (Option String) :=
  match files with
  | none => .ok none
  | some fs =>
    match fs.avatar with
    | none => .error (.typeError "Cannot read properties of undefined (reading 0)")
    | some l =>
      match l with
      | [] => .ok none
      | f :: _ => .ok f.path

/-- The variable `coverImageLocalPath` after lines 64-71: set only when
`req.files` is present and its `coverImage` is a non-empty array. -/
def coverImageLocalPath (files : Option Files) : Option String :=
  match files with
  | none => none
  | some fs =>
    match fs.coverImage with
    | none => none
    | some l =>
      match l with
      | [] => none
      | f :: _ => f.path

/-- The test of lines 49-51: some field trims to the empty string.  On an absent
field `field?.trim()` is `undefined`, which is not `""`. -/
def someFieldBlank (b : Body) : Bool :=
  [b.fullName, b.email, b.username, b.password].any
    (fun field => field.map trim == some "")

/-- The expression `coverImage?.url || ""` of line 86. -/
def coverImageUrl (coverImage : Option UploadResult) : String :=
  match coverImage with
  | none => ""
  | some r => if r.url = "" then "" else r.url

/-- The handler `registerUser`, lines 36-102. -/
def registerUser (c : Collaborators) (db : Store) (req : Request) : Outcome Response :=
  let fullName := req.body.fullName
  let email := req.body.email
  let username := req.body.username
  let password := req.body.password
  if someFieldBlank req.body then
    { result := .error (.apiError 400 "All fields are required!!"), store := db,
      effects := [] }
  else
    match User.findOne db username email with
    | some _ =>
      { result := .error (.apiError 409 "User with this email or username already exists."),
        store := db, effects := [.findOne username email] }
    | none =>
      match avatarLocalPath req.files with
      | .error e =>
        { result := .error e, store := db, effects := [.findOne username email] }
      | .ok avatarPath =>
        let coverPath := coverImageLocalPath req.files
        if !truthy avatarPath then
          { result := .error (.apiError 400 "Avatar Image is required"), store := db,
            effects := [.findOne username email] }
        else
          let avatar := uploadOnCloudinary c avatarPath
          let coverImage := uploadOnCloudinary c coverPath
          let uploads : List Effect :=
            [.findOne username email, .upload avatarPath, .upload coverPath]
          match avatar with
          | none =>
            { result := .error (.apiError 400 "Avatar is required."), store := db,
              effects := uploads }
          | some avatar =>
            match username with
            | none =>
              { result := .error
                  (.typeError "Cannot read properties of undefined (reading toLowerCase)"),
                store := db, effects := uploads }
            | some uname =>
              let doc : NewUser :=
                { fullName := fullName, avatar := avatar.url,
                  coverImage := coverImageUrl coverImage, email := email,
                  username := c.toLowerCase uname, password := password }
              match User.create c.hashPassword db doc with
              | .error e =>
                { result := .error e, store := db, effects := uploads ++ [.create doc] }
              | .ok (db1, user) =>
                match (User.findById db1 (some user._id)).map select with
                | none =>
                  { result := .error
                      (.apiError 500 "Something went wrong while registering the user."),
                    store := db1,
                    effects := uploads ++ [.create doc, .findById (some user._id)] }
                | some createdUser =>
                  { result := .ok
                      { status := 201, cookies := [],
                        json := { statusCode := 200, data := .user createdUser,
                                  message := "User registered Successfully!" } },
                    store := db1,
                    effects := uploads ++ [.create doc, .findById (some user._id)] }

/-- The handler `loginUser`, lines 104-155. -/
def loginUser (c : Collaborators) (db : Store) (req : Request) : Outcome Response :=
  let username := req.body.username
  let email := req.body.email
  let password := req.body.password
  if !(truthy email || truthy username) then
    { result := .error (.apiError 400 "Username or email is required."), store := db,
      effects := [] }
  else
    match User.findOne db username email with
    | none =>
      { result := .error (.apiError 404 "User does not exists!"), store := db,
        effects := [.findOne username email] }
    | some user =>
      if !c.isPasswordCorrect user password then
        { result := .error (.apiError 401 "Invalid password!"), store := db,
          effects := [.findOne username email] }
      else
        let g := generateAccessAndRefreshToken c db user._id
        match g.result with
        | .error e =>
          { result := .error e, store := g.store,
            effects := .findOne username email :: g.effects }
        | .ok t =>
          let loggedInUser := (User.findById g.store (some user._id)).map select
          { result := .ok
              { status := 200,
                cookies := [("accessToken", t.accessToken),
                            ("refreshToken", t.refreshToken)],
                json := { statusCode := 200,
                          data := .login loggedInUser t.accessToken t.refreshToken,
                          message := "User logged In Successfully!" } },
            store := g.store,
            effects := .findOne username email :: g.effects ++
              [.findById (some user._id)] }

/-- The `catch` of `refreshAccessToken` and of `verifyJWT`: whatever was thrown in
the `try` is thrown again as an `ApiError` of status 401 with the same message,
or with `fallback` when the message is empty. -/
def rethrow401 (fallback : String) (e : Failure) : Failure :=
  .apiError 401 (if e.message = "" then fallback else e.message)

/-- The `try` block of `refreshAccessToken`, lines 192-221, for an incoming
token. -/
def refreshAccessTokenTry (c : Collaborators) (db : Store) (incomingRefreshToken : String) :
    Outcome Response :=
  match c.jwtVerify incomingRefreshToken c.REFRESH_TOKEN_SECRET with
  | .error m => { result := .error (.error m), store := db, effects := [] }
  | .ok decodeToken =>
    match User.findById db decodeToken._id with
    | none =>
      { result := .error (.apiError 401 "Invalid refresh token."), store := db,
        effects := [.findById decodeToken._id] }
    | some user =>
      if some incomingRefreshToken ≠ user.refreshToken then
        { result := .error (.apiError 401 "Refresh token is expired or used."),
          store := db, effects := [.findById decodeToken._id] }
      else
        let g := generateAccessAndRefreshToken c db user._id
        match g.result with
        | .error e =>
          { result := .error e, store := g.store,
            effects := .findById decodeToken._id :: g.effects }
        | .ok newTokens =>
          { result := .ok
              { status := 200,
                cookies := [("accessToken", newTokens.accessToken),
                            ("refreshToken", newTokens.refreshToken)],
                json := { statusCode := 200,
                          data := .tokens newTokens.accessToken newTokens.refreshToken,
                          message := "Access token Refreshed." } },
            store := g.store,
            effects := .findById decodeToken._id :: g.effects }

/-- The handler `refreshAccessToken`, lines 177-225. -/
def refreshAccessToken (c : Collaborators) (db : Store) (req : Request) :
    Outcome Response :=
  match jsOr req.cookies.refreshToken req.body.refreshToken with
  | none =>
    { result := .error (.apiError 401 "Unauthorized request."), store := db,
      effects := [] }
  | some incomingRefreshToken =>
    if incomingRefreshToken = "" then
      { result := .error (.apiError 401 "Unauthorized request."), store := db,
        effects := [] }
    else
      let r := refreshAccessTokenTry c db incomingRefreshToken
      match r.result with
      | .error e => { r with result := .error (rethrow401 "Invalid refresh token." e) }
      | .ok _ => r

/-! ## The auth middleware -/

/-- The run of a middleware: the error it threw, if any, `req.user` afterwards,
and whether it called `next`. -/
structure MiddlewareOutcome where
  failure : Option Failure
  user : Option UserDoc
  nextCalled : Bool
deriving DecidableEq, Repr

/-- The token `verifyJWT` reads, lines 13-15: the `accessToken` cookie when it is
truthy, else the `Authorization` header after `replace("Bearer ", "")`. -/
def accessTokenOf (req : Request) : Option String :=
  jsOr req.cookies.accessToken (req.authorization.map (fun h => replace h "Bearer " ""))

/-- The `try` block of `verifyJWT`, lines 13-31. -/
def verifyJWTTry (c : Collaborators) (db : Store) (req : Request) : MiddlewareOutcome :=
  match accessTokenOf req with
  | none =>
    { failure := some (.apiError 401 "Unauthorized request."), user := none,
      nextCalled := false }
  | some token =>
    if token = "" then
      { failure := some (.apiError 401 "Unauthorized request."), user := none,
        nextCalled := false }
    else
      match c.jwtVerify token c.ACCESS_TOKEN_SECRET with
      | .error m => { failure := some (.error m), user := none, nextCalled := false }
      | .ok decodeToken =>
        match (User.findById db decodeToken._id).map select with
        | none =>
          { failure := some (.apiError 401 "Invalid Access Token!"), user := none,
            nextCalled := false }
        | some user => { failure := none, user := some user, nextCalled := true }

/-- The middleware `verifyJWT`, lines 6-35.  The call of `next` is its last step
and is recorded as `nextCalled`; what the next handler does is not part of the
run. -/
def verifyJWT (c : Collaborators) (db : Store) (req : Request) : MiddlewareOutcome :=
  let r := verifyJWTTry c db req
  { r with failure := r.failure.map (rethrow401 "Invalid access Token.") }

/-! ## Observations on an outcome -/

/-- The cookies a run set: those of the response it sent, none when it threw
before sending one. -/
def Outcome.cookies (o : Outcome Response) : List (String × String) :=
  match o.result with
  | .ok r => r.cookies
  | .error _ => []

/-- The calls that mint a token. -/
def Effect.isTokenGeneration : Effect → Bool
  | .generateAccessToken _ => true
  | .generateRefreshToken _ => true
  | _ => false

/-- The call that inserts a user. -/
def Effect.isCreate : Effect → Bool
  | .create _ => true
  | _ => false

/-! ## Concrete collaborators and inputs for evaluation -/

/-- Lower-casing of the letters A to Z, as `toLowerCase` does on ASCII text. -/
def asciiLower (s : String) : String :=
  String.mk (s.data.map
    (fun ch => if 65 ≤ ch.toNat ∧ ch.toNat ≤ 90 then Char.ofNat (ch.toNat + 32) else ch))

/-- A token library for evaluation: the token `rt-N` verifies under the secret
`refresh` and the token `at-N` under the secret `access`, both with payload
`_id = N`, for the users 1 and 2; every other token is malformed. -/
def demoVerify (token secret : String) : Except String JwtPayload :=
  if secret = "refresh" ∧ token = "rt-1" then .ok { _id := some 1 }
  else if secret = "refresh" ∧ token = "rt-2" then .ok { _id := some 2 }
  else if secret = "access" ∧ token = "at-1" then .ok { _id := some 1 }
  else if secret = "access" ∧ token = "at-2" then .ok { _id := some 2 }
  else .error "jwt malformed"

/-- Collaborators for evaluation.  An upload succeeds for every non-empty path; a
password is correct when its hash is the stored one. -/
def demo : Collaborators where
  toLowerCase := asciiLower
  hashPassword := fun p => "hash:" ++ p
  isPasswordCorrect := fun u p =>
    match p with
    | none => false
    | some pw => u.password == some ("hash:" ++ pw)
  generateAccessToken := fun u => "at-" ++ toString u._id
  generateRefreshToken := fun u => "rt-" ++ toString u._id
  cloudinaryUpload := fun path =>
    if path = "" then none else some { url := "https://cdn/" ++ path }
  jwtVerify := demoVerify
  ACCESS_TOKEN_SECRET := "access"
  REFRESH_TOKEN_SECRET := "refresh"

/-- A stored user, `bob`, with password `pw` and refresh token `rt-1`. -/
def bob : UserDoc :=
  { _id := 1, fullName := some "Bob B", avatar := "https://cdn/b.png", coverImage := "",
    email := some "bob@x.io", username := some "bob", password := some "hash:pw",
    refreshToken := some "rt-1" }

/-- A stored user, `eve`, who is logged out. -/
def eve : UserDoc :=
  { _id := 2, fullName := some "Eve E", avatar := "https://cdn/e.png", coverImage := "",
    email := some "eve@x.io", username := some "eve", password := some "hash:pw2",
    refreshToken := none }

/-- The files of a request that carries an avatar only. -/
def avatarOnly : Files :=
  { avatar := some [{ path := some "tmp/a.png" }] }

/-- A registration for `Ann`, with an avatar and a cover image. -/
def annRequest : Request :=
  { body := { fullName := some "Ann A", email := some "ann@x.io", username := some "Ann",
              password := some "pw" },
    files := some { avatar := some [{ path := some "tmp/a.png" }],
                    coverImage := some [{ path := some "tmp/c.png" }] } }

/-- The record the registration of `Ann` on an empty store creates. -/
def annDoc : UserDoc :=
  { _id := 1, fullName := some "Ann A", avatar := "https://cdn/tmp/a.png",
    coverImage := "https://cdn/tmp/c.png", email := some "ann@x.io",
    username := some "ann", password := some "hash:pw", refreshToken := none }

/-- The registration of `Ann` without the cover image. -/
def annNoCoverRequest : Request :=
  { annRequest with files := some avatarOnly }

/-- A registration without the `username` field. -/
def noUsernameRequest : Request :=
  { body := { fullName := some "Ann A", email := some "ann@x.io", password := some "pw" },
    files := some avatarOnly }

/-- A registration for `Ann` whose `req.files` is an object without an `avatar`
entry. -/
def noAvatarEntryRequest : Request :=
  { body := { fullName := some "Ann A", email := some "ann@x.io", username := some "Ann",
              password := some "pw" },
    files := some {} }

/-- A run that left the store as it was, set no cookie and minted no token. -/
def Quiet (o : Outcome Response) (db : Store) : Prop :=
  o.store = db ∧ o.cookies = [] ∧ ∀ e ∈ o.effects, e.isTokenGeneration = false

/-- The response to the registration of `Ann` on an empty store. -/
def annResponse : Response :=
  { status := 201, cookies := [],
    json := { statusCode := 200, data := .user (select annDoc),
              message := "User registered Successfully!" } }

/-- A login without username and email. -/
def emptyLogin : Request :=
  { body := { username := some "", password := some "pw" } }

/-- A login for a user the store does not hold. -/
def unknownLogin : Request :=
  { body := { username := some "zed", password := some "pw" } }

/-- A login for `eve` with a wrong password. -/
def wrongPasswordLogin : Request :=
  { body := { email := some "eve@x.io", password := some "guess" } }

/-- A login for `eve` with her password. -/
def eveLogin : Request :=
  { body := { username := some "eve", password := some "pw2" } }

/-- The logged-in `eve`: her record with the refresh token `rt-2`. -/
def eveLoggedIn : UserDoc :=
  { eve with refreshToken := some "rt-2" }

/-- The response to the login of `eve`. -/
def eveLoginResponse : Response :=
  { status := 200, cookies := [("accessToken", "at-2"), ("refreshToken", "rt-2")],
    json := { statusCode := 200,
              data := .login (some (select eveLoggedIn)) "at-2" "rt-2",
              message := "User logged In Successfully!" } }

/-- A refresh with the token stored for `bob`, sent in the body. -/
def bobRefresh : Request :=
  { body := { refreshToken := some "rt-1" } }

/-- A refresh with a token that verifies for `eve`, who has no stored token. -/
def eveRefresh : Request :=
  { cookies := { refreshToken := some "rt-2" } }

/-- A request with the access token of `eve` in the `Authorization` header. -/
def eveBearer : Request :=
  { authorization := some "Bearer at-2" }

/-- A request whose `Authorization` header holds `Bearer ` after its first
character. -/
def bearerInside : Request :=
  { authorization := some "aBearer t-2" }

/-- A header without its `Bearer ` prefix, when it has one. -/
def dropBearer (header : String) : String :=
  if "Bearer ".data.isPrefixOf header.data then String.mk (header.data.drop 7) else header

/-- The token of a request as the specification words it: the `accessToken`
cookie, else the `Authorization` header with its `Bearer ` prefix removed. -/
def specAccessToken (req : Request) : Option String :=
  jsOr req.cookies.accessToken (req.authorization.map dropBearer)

/-! ## Lemmas on the store -/

theorem findById_id {db : Store} {i : Nat} {u : UserDoc}
    (h : User.findById db (some i) = some u) : u._id = i := by
  have := List.find?_some h
  simpa using this

theorem findOne_eq_none {db : Store} {username email : Option String} :
    User.findOne db username email = none ↔
      ∀ d ∈ db, d.username ≠ username ∧ d.email ≠ email := by
  simp [User.findOne, List.find?_eq_none]

theorem findOne_isSome_of_mem {db : Store} {username email : Option String} {d : UserDoc}
    (hd : d ∈ db) (h : d.username = username ∨ d.email = email) :
    ∃ u, User.findOne db username email = some u := by
  cases hf : User.findOne db username email with
  | some u => exact ⟨u, rfl⟩
  | none =>
    have := (findOne_eq_none.mp hf) d hd
    rcases h with h | h
    · exact absurd h this.1
    · exact absurd h this.2

theorem lt_freshId {db : Store} {d : UserDoc} (hd : d ∈ db) : d._id < freshId db := by
  induction db with
  | nil => cases hd
  | cons a t ih =>
    simp only [freshId, List.map_cons, List.foldr_cons] at ih ⊢
    rcases List.mem_cons.mp hd with h | h
    · subst h; omega
    · have := ih h; omega

theorem findById_append_fresh (db : Store) (doc : UserDoc) (h : doc._id = freshId db) :
    User.findById (db ++ [doc]) (some doc._id) = some doc := by
  simp only [User.findById, List.find?_append]
  have hnone : db.find? (fun d => d._id == doc._id) = none := by
    rw [List.find?_eq_none]
    intro d hd
    have := lt_freshId hd
    simp
    omega
  simp [hnone]

/-- Saving a document found by its id: the first document with that id is
replaced, every other position of the collection is left as it was. -/
theorem save_found {db : Store} {i : Nat} {u : UserDoc} (u1 : UserDoc)
    (h : User.findById db (some i) = some u) (h1 : u1._id = i) :
    ∃ pre post, db = pre ++ u :: post ∧ (∀ d ∈ pre, d._id ≠ i) ∧
      User.save db u1 = pre ++ u1 :: post := by
  induction db with
  | nil => simp [User.findById] at h
  | cons a t ih =>
    by_cases ha : a._id = i
    · have hu : a = u := by
        simpa [User.findById, List.find?_cons, ha] using h
      subst hu
      exact ⟨[], t, rfl, by simp, by simp [User.save, ha, h1]⟩
    · have ht : User.findById t (some i) = some u := by
        simpa [User.findById, List.find?_cons, ha] using h
      obtain ⟨pre, post, e1, e2, e3⟩ := ih ht
      refine ⟨a :: pre, post, by simp [e1], ?_, ?_⟩
      · intro d hd
        rcases List.mem_cons.mp hd with hd | hd
        · subst hd; exact ha
        · exact e2 d hd
      · simp [User.save, ha, h1, e3]

theorem findById_save {db : Store} {i : Nat} {u : UserDoc} (u1 : UserDoc)
    (h : User.findById db (some i) = some u) (h1 : u1._id = i) :
    User.findById (User.save db u1) (some i) = some u1 := by
  obtain ⟨pre, post, _, e2, e3⟩ := save_found u1 h h1
  rw [e3]
  simp only [User.findById, List.find?_append]
  have hnone : pre.find? (fun d => d._id == i) = none := by
    rw [List.find?_eq_none]
    intro d hd
    simpa using e2 d hd
  simp [hnone, List.find?_cons, h1]

/-! ## registerUser -/

/-- The test of lines 49-51 holds exactly when one of the four fields is a string
that trims to the empty string; an absent field never makes it hold. -/
theorem someFieldBlank_iff (b : Body) :
    someFieldBlank b = true ↔
      ∃ s, trim s = "" ∧
        (b.fullName = some s ∨ b.email = some s ∨ b.username = some s ∨
          b.password = some s) := by
  simp only [someFieldBlank, List.any_cons, List.any_nil, Bool.or_false, Bool.or_eq_true,
    beq_iff_eq, Option.map_eq_some']
  constructor
  · rintro (⟨s, h1, h2⟩ | ⟨s, h1, h2⟩ | ⟨s, h1, h2⟩ | ⟨s, h1, h2⟩)
    · exact ⟨s, h2, Or.inl h1⟩
    · exact ⟨s, h2, Or.inr (Or.inl h1)⟩
    · exact ⟨s, h2, Or.inr (Or.inr (Or.inl h1))⟩
    · exact ⟨s, h2, Or.inr (Or.inr (Or.inr h1))⟩
  · rintro ⟨s, h2, h1 | h1 | h1 | h1⟩
    · exact Or.inl ⟨s, h1, h2⟩
    · exact Or.inr (Or.inl ⟨s, h1, h2⟩)
    · exact Or.inr (Or.inr (Or.inl ⟨s, h1, h2⟩))
    · exact Or.inr (Or.inr (Or.inr ⟨s, h1, h2⟩))

/-- A field that is a blank string: status 400 before any call on the store or on
the upload helper. -/
theorem registerUser_blank_field (c : Collaborators) (db : Store) (req : Request)
    (h : someFieldBlank req.body = true) :
    (registerUser c db req).result = .error (.apiError 400 "All fields are required!!") ∧
      (registerUser c db req).store = db ∧ (registerUser c db req).effects = [] := by
  simp [registerUser, h]

/-- A request whose fields pass the test of lines 49-51 reaches the lookup of line
55, whether or not all four fields are present. -/
theorem registerUser_reaches_lookup (c : Collaborators) (db : Store) (req : Request)
    (h : someFieldBlank req.body = false) :
    (registerUser c db req).effects.head? =
      some (.findOne req.body.username req.body.email) := by
  simp only [registerUser, h, Bool.false_eq_true, if_false]
  repeat' split
  all_goals simp

/-- When the lookup of line 55 finds a user: status 409, no upload, the store
unchanged. -/
theorem registerUser_found (c : Collaborators) (db : Store) (req : Request)
    (hv : someFieldBlank req.body = false) (u : UserDoc)
    (hu : User.findOne db req.body.username req.body.email = some u) :
    (registerUser c db req).result =
        .error (.apiError 409 "User with this email or username already exists.") ∧
      (registerUser c db req).store = db ∧
      (registerUser c db req).effects = [.findOne req.body.username req.body.email] := by
  simp [registerUser, hv, hu]

/-- A stored user with the username as the request gives it, or with the
request's email: status 409, no upload, the store unchanged. -/
theorem registerUser_existing (c : Collaborators) (db : Store) (req : Request)
    (hv : someFieldBlank req.body = false) (d : UserDoc) (hd : d ∈ db)
    (h : d.username = req.body.username ∨ d.email = req.body.email) :
    (registerUser c db req).result =
        .error (.apiError 409 "User with this email or username already exists.") ∧
      (registerUser c db req).store = db ∧
      (registerUser c db req).effects = [.findOne req.body.username req.body.email] := by
  obtain ⟨u, hu⟩ := findOne_isSome_of_mem hd h
  simp [registerUser, hv, hu]

/-- A request that passes the field test and the existing-user check but has no
`req.files`, an empty avatar list, or a first avatar file without a path: status
400 and no user created. -/
theorem registerUser_no_avatar_path (c : Collaborators) (db : Store) (req : Request)
    (hv : someFieldBlank req.body = false)
    (hn : User.findOne db req.body.username req.body.email = none)
    (h : req.files = none ∨
      ∃ fs, req.files = some fs ∧
        (fs.avatar = some [] ∨
          ∃ f rest, fs.avatar = some (f :: rest) ∧ truthy f.path = false)) :
    (registerUser c db req).result = .error (.apiError 400 "Avatar Image is required") ∧
      (registerUser c db req).store = db ∧
      (registerUser c db req).effects = [.findOne req.body.username req.body.email] := by
  rcases h with h | ⟨fs, h, h2 | ⟨f, rest, h2, h3⟩⟩
  · simp [registerUser, hv, hn, h, avatarLocalPath, truthy]
  · simp [registerUser, hv, hn, h, h2, avatarLocalPath, truthy]
  · simp [registerUser, hv, hn, h, h2, avatarLocalPath, h3]

/-- A request with an avatar path whose upload fails: status 400 and no user
created. -/
theorem registerUser_avatar_upload_failed (c : Collaborators) (db : Store) (req : Request)
    (hv : someFieldBlank req.body = false)
    (hn : User.findOne db req.body.username req.body.email = none)
    (path : Option String) (hp : avatarLocalPath req.files = .ok path)
    (ht : truthy path = true) (hu : uploadOnCloudinary c path = none) :
    (registerUser c db req).result = .error (.apiError 400 "Avatar is required.") ∧
      (registerUser c db req).store = db ∧
      ∀ e ∈ (registerUser c db req).effects, e.isCreate = false := by
  simp [registerUser, hv, hn, hp, ht, hu, Effect.isCreate]

/-- C1, at a request without a username on an empty store: the claim asks for an
`ApiError` of status 400 before any store lookup or upload whenever a field is
absent.  The request passes the test of lines 49-51, the handler looks the user
up and uploads, and fails only at `username.toLowerCase()` with a `TypeError`. -/
theorem registerUser_absent_username_not_rejected :
    noUsernameRequest.body.username = none ∧
      someFieldBlank noUsernameRequest.body = false ∧
      (registerUser demo [] noUsernameRequest).result =
        .error (.typeError "Cannot read properties of undefined (reading toLowerCase)") ∧
      (registerUser demo [] noUsernameRequest).effects =
        [.findOne none (some "ann@x.io"), .upload (some "tmp/a.png"), .upload none] :=
  ⟨rfl, rfl, rfl, rfl⟩

/-- C3, at a request whose `req.files` has no `avatar` entry: the claim asks for
an `ApiError` of status 400.  Line 63 indexes the missing entry and the handler
fails with a `TypeError`; no user is created. -/
theorem registerUser_files_without_avatar_entry :
    someFieldBlank noAvatarEntryRequest.body = false ∧
      User.findOne [] noAvatarEntryRequest.body.username
        noAvatarEntryRequest.body.email = none ∧
      noAvatarEntryRequest.files = some { avatar := none, coverImage := none } ∧
      (registerUser demo [] noAvatarEntryRequest).result =
        .error (.typeError "Cannot read properties of undefined (reading 0)") ∧
      (registerUser demo [] noAvatarEntryRequest).store = [] :=
  ⟨rfl, rfl, rfl, rfl, rfl⟩

/-- The expression `coverImage?.url || ""` on an uploaded cover is its URL. -/
theorem coverImageUrl_some (cover : UploadResult) :
    coverImageUrl (some cover) = cover.url := by
  simp only [coverImageUrl]
  split
  · rename_i h; exact h.symm
  · rfl

/-- A truthy `avatarLocalPath` is the non-empty path of the first file of the
`avatar` entry of `req.files`. -/
theorem avatarLocalPath_truthy {files : Option Files} {path : Option String}
    (h : avatarLocalPath files = .ok path) (ht : truthy path = true) :
    ∃ fs file rest p,
      files = some fs ∧ fs.avatar = some (file :: rest) ∧ file.path = some p ∧
      path = some p ∧ p ≠ "" := by
  cases files with
  | none =>
    simp only [avatarLocalPath, Except.ok.injEq] at h
    subst h
    simp [truthy] at ht
  | some fs =>
    cases ha : fs.avatar with
    | none => simp [avatarLocalPath, ha] at h
    | some l =>
      cases l with
      | nil =>
        simp only [avatarLocalPath, ha, Except.ok.injEq] at h
        subst h
        simp [truthy] at ht
      | cons file rest =>
        simp only [avatarLocalPath, ha, Except.ok.injEq] at h
        subst h
        cases hp : file.path with
        | none => simp [truthy, hp] at ht
        | some p =>
          refine ⟨fs, file, rest, p, rfl, ha, hp, rfl, ?_⟩
          simpa [truthy, hp] using ht

/-- C4: when `registerUser` succeeds, the store is the old store with exactly one
document appended; its username is the request's username lower-cased; its
avatar is the URL the upload of the first avatar file returned; its coverImage
is the empty string when `req.files` has no cover image (no `coverImage` entry or
an empty one), and otherwise the URL the upload of the first cover file returned,
or the empty string when that upload failed; the response has status 201 and its
data is that document without password and refreshToken. -/
theorem registerUser_success (c : Collaborators) (db : Store) (req : Request)
    (resp : Response) (h : (registerUser c db req).result = .ok resp) :
    ∃ uname fs file rest avatarPath avatar doc,
      req.body.username = some uname ∧
      req.files = some fs ∧ fs.avatar = some (file :: rest) ∧
      file.path = some avatarPath ∧
      uploadOnCloudinary c (some avatarPath) = some avatar ∧
      (registerUser c db req).store = db ++ [doc] ∧
      doc.fullName = req.body.fullName ∧
      doc.email = req.body.email ∧
      doc.username = some (c.toLowerCase uname) ∧
      doc.avatar = avatar.url ∧
      ((fs.coverImage = none ∨ fs.coverImage = some []) → doc.coverImage = "") ∧
      (∀ coverFile more, fs.coverImage = some (coverFile :: more) →
        (∀ cover, uploadOnCloudinary c coverFile.path = some cover →
          doc.coverImage = cover.url) ∧
        (uploadOnCloudinary c coverFile.path = none → doc.coverImage = "")) ∧
      resp.status = 201 ∧
      resp.json.data = .user (select doc) ∧
      (select doc).password = none ∧ (select doc).refreshToken = none := by
  unfold registerUser at h ⊢
  simp only at h ⊢
  split at h
  · simp at h
  split at h
  · simp at h
  split at h
  · simp at h
  rename_i path hpath
  split at h
  · simp at h
  rename_i htruthy
  split at h
  · simp at h
  rename_i avatar havatar
  split at h
  · simp at h
  rename_i uname huname
  split at h
  · simp at h
  rename_i db1 user hcreate
  split at h
  · simp at h
  rename_i createdUser hcreated
  have hc := hcreate
  simp only [User.create] at hc
  split at hc
  · simp at hc
  simp only [Except.ok.injEq, Prod.mk.injEq] at hc
  obtain ⟨hdb1, huser⟩ := hc
  subst hdb1
  subst huser
  rw [findById_append_fresh _ _ rfl] at hcreated
  simp only [Option.map_some', Option.some.injEq] at hcreated
  subst hcreated
  simp only [Except.ok.injEq] at h
  subst h
  rw [if_neg ‹_›, if_neg ‹_›]
  have htr : truthy path = true := by
    cases hb : truthy path with
    | true => rfl
    | false => simp [hb] at htruthy
  obtain ⟨fs, file, rest, p, hfs, hav, hfp, hpath2, _⟩ := avatarLocalPath_truthy hpath htr
  subst hpath2
  refine ⟨uname, fs, file, rest, p, avatar, _, huname, hfs, hav, hfp, havatar, rfl, rfl, rfl,
    rfl, rfl, ?_, ?_, rfl, rfl, rfl, rfl⟩
  · intro hcov
    have hnone : coverImageLocalPath req.files = none := by
      rcases hcov with hcov | hcov <;> simp [coverImageLocalPath, hfs, hcov]
    simp only [hnone]
    rfl
  · intro coverFile more hcov
    have hcp : coverImageLocalPath req.files = coverFile.path := by
      simp [coverImageLocalPath, hfs, hcov]
    simp only [hcp]
    constructor
    · intro cover hcover
      rw [hcover]
      exact coverImageUrl_some cover
    · intro hnone
      rw [hnone]
      rfl

/-- C4 at concrete inputs: the registration of `Ann` with an avatar and a cover
image on an empty store creates the record `annDoc`, whose coverImage is the URL
of the uploaded cover; without the cover image the coverImage is empty. -/
theorem registerUser_success_witness :
    (registerUser demo [] annRequest).result = .ok annResponse ∧
    (registerUser demo [] annRequest).store = [annDoc] ∧
    (registerUser demo [] annNoCoverRequest).store = [{ annDoc with coverImage := "" }] ∧
    ∃ uname fs file rest avatarPath avatar doc,
      annRequest.body.username = some uname ∧
      annRequest.files = some fs ∧ fs.avatar = some (file :: rest) ∧
      file.path = some avatarPath ∧
      uploadOnCloudinary demo (some avatarPath) = some avatar ∧
      (registerUser demo [] annRequest).store = [] ++ [doc] ∧
      doc.fullName = annRequest.body.fullName ∧
      doc.email = annRequest.body.email ∧
      doc.username = some (demo.toLowerCase uname) ∧
      doc.avatar = avatar.url ∧
      ((fs.coverImage = none ∨ fs.coverImage = some []) → doc.coverImage = "") ∧
      (∀ coverFile more, fs.coverImage = some (coverFile :: more) →
        (∀ cover, uploadOnCloudinary demo coverFile.path = some cover →
          doc.coverImage = cover.url) ∧
        (uploadOnCloudinary demo coverFile.path = none → doc.coverImage = "")) ∧
      annResponse.status = 201 ∧
      annResponse.json.data = .user (select doc) ∧
      (select doc).password = none ∧ (select doc).refreshToken = none :=
  ⟨rfl, rfl, rfl, registerUser_success demo [] annRequest annResponse rfl⟩

/-! ## loginUser -/

/-- C5: `loginUser` fails with status 400 when email and username are both absent
or empty; otherwise with 404 when no stored user has the given username or the
given email; otherwise with 401 when `isPasswordCorrect` of the matched user
rejects the given password.  In each case the store is unchanged, no cookie is
set and no token is generated. -/
theorem loginUser_rejects (c : Collaborators) (db : Store) (req : Request) :
    (truthy req.body.email = false ∧ truthy req.body.username = false →
      (loginUser c db req).result =
          .error (.apiError 400 "Username or email is required.") ∧
        Quiet (loginUser c db req) db) ∧
    ((truthy req.body.email = true ∨ truthy req.body.username = true) →
      (∀ d ∈ db, d.username ≠ req.body.username ∧ d.email ≠ req.body.email) →
      (loginUser c db req).result = .error (.apiError 404 "User does not exists!") ∧
        Quiet (loginUser c db req) db) ∧
    (∀ user, (truthy req.body.email = true ∨ truthy req.body.username = true) →
      User.findOne db req.body.username req.body.email = some user →
      c.isPasswordCorrect user req.body.password = false →
      (loginUser c db req).result = .error (.apiError 401 "Invalid password!") ∧
        Quiet (loginUser c db req) db) := by
  refine ⟨?_, ?_, ?_⟩
  · rintro ⟨h1, h2⟩
    simp [loginUser, h1, h2, Quiet, Outcome.cookies]
  · intro h hn
    have hne : (truthy req.body.email || truthy req.body.username) = true := by
      rcases h with h | h <;> simp [h]
    simp [loginUser, hne, findOne_eq_none.mpr hn, Quiet, Outcome.cookies,
      Effect.isTokenGeneration]
  · intro user h hu hp
    have hne : (truthy req.body.email || truthy req.body.username) = true := by
      rcases h with h | h <;> simp [h]
    simp [loginUser, hne, hu, hp, Quiet, Outcome.cookies, Effect.isTokenGeneration]

/-- C5 at concrete inputs: a login without identifier, one for an unknown user and
one with a wrong password, on the store of `bob` and `eve`. -/
theorem loginUser_rejects_witness :
    ((loginUser demo [bob, eve] emptyLogin).result =
        .error (.apiError 400 "Username or email is required.") ∧
      Quiet (loginUser demo [bob, eve] emptyLogin) [bob, eve]) ∧
    ((loginUser demo [bob, eve] unknownLogin).result =
        .error (.apiError 404 "User does not exists!") ∧
      Quiet (loginUser demo [bob, eve] unknownLogin) [bob, eve]) ∧
    ((loginUser demo [bob, eve] wrongPasswordLogin).result =
        .error (.apiError 401 "Invalid password!") ∧
      Quiet (loginUser demo [bob, eve] wrongPasswordLogin) [bob, eve]) :=
  ⟨(loginUser_rejects demo [bob, eve] emptyLogin).1 ⟨rfl, rfl⟩,
   (loginUser_rejects demo [bob, eve] unknownLogin).2.1 (Or.inr rfl) (by decide),
   (loginUser_rejects demo [bob, eve] wrongPasswordLogin).2.2 eve (Or.inl rfl) rfl rfl⟩

/-- In a store whose ids are distinct, a stored document is the one found by its
id. -/
theorem findById_of_mem {db : Store} (hid : (db.map UserDoc._id).Nodup) {u : UserDoc}
    (hu : u ∈ db) : User.findById db (some u._id) = some u := by
  induction db with
  | nil => cases hu
  | cons a t ih =>
    simp only [List.map_cons, List.nodup_cons, List.mem_map, not_exists, not_and] at hid
    rcases List.mem_cons.mp hu with h | h
    · subst h
      simp [User.findById, List.find?_cons]
    · have hne : ¬ a._id = u._id := fun e => hid.1 u h e.symm
      have := ih hid.2 h
      simpa [User.findById, List.find?_cons, hne] using this

/-- A successful `generateAccessAndRefreshToken`: the user exists, the tokens are
those its two methods mint, and the store differs only in the refresh token of
the first document with that id. -/
theorem generateAccessAndRefreshToken_ok {c : Collaborators} {db : Store} {userId : Nat}
    {t : Tokens} (h : (generateAccessAndRefreshToken c db userId).result = .ok t) :
    ∃ u pre post,
      User.findById db (some userId) = some u ∧
      t = { accessToken := c.generateAccessToken u,
            refreshToken := c.generateRefreshToken u } ∧
      db = pre ++ u :: post ∧ (∀ d ∈ pre, d._id ≠ userId) ∧
      (generateAccessAndRefreshToken c db userId).store =
        pre ++ { u with refreshToken := some t.refreshToken } :: post ∧
      User.findById (generateAccessAndRefreshToken c db userId).store (some userId) =
        some { u with refreshToken := some t.refreshToken } ∧
      (generateAccessAndRefreshToken c db userId).effects =
        [.findById (some userId), .generateAccessToken userId,
         .generateRefreshToken userId, .save userId] := by
  unfold generateAccessAndRefreshToken at h ⊢
  cases hf : User.findById db (some userId) with
  | none => simp [hf] at h
  | some u =>
    simp only [hf, Except.ok.injEq] at h ⊢
    have hi := findById_id hf
    obtain ⟨pre, post, e1, e2, e3⟩ :=
      save_found { u with refreshToken := some (c.generateRefreshToken u) } hf hi
    have e4 := findById_save { u with refreshToken := some (c.generateRefreshToken u) } hf hi
    subst h
    exact ⟨u, pre, post, rfl, rfl, e1, e2, e3, e4, by simp [hi]⟩

/-- For the id of a stored user `generateAccessAndRefreshToken` succeeds. -/
theorem generateAccessAndRefreshToken_of_found {c : Collaborators} {db : Store}
    {userId : Nat} {u : UserDoc} (h : User.findById db (some userId) = some u) :
    (generateAccessAndRefreshToken c db userId).result =
      .ok { accessToken := c.generateAccessToken u,
            refreshToken := c.generateRefreshToken u } := by
  simp [generateAccessAndRefreshToken, h]

/-- C6: in a store with distinct ids, after a successful call of
`generateAccessAndRefreshToken` the refresh token stored on the record of that id
is the one returned and the store differs in nothing else; after a successful
`loginUser` the same holds for the record matched by username or email, the
`refreshToken` cookie and `data.refreshToken` are the stored token, the
`accessToken` cookie is `data.accessToken`, and `data.user` is that record
without password and refreshToken. -/
theorem token_issuance_persists (c : Collaborators) (db : Store)
    (hid : (db.map UserDoc._id).Nodup) :
    (∀ userId t, (generateAccessAndRefreshToken c db userId).result = .ok t →
      ∃ u pre post,
        u._id = userId ∧ db = pre ++ u :: post ∧
        (generateAccessAndRefreshToken c db userId).store =
          pre ++ { u with refreshToken := some t.refreshToken } :: post ∧
        User.findById (generateAccessAndRefreshToken c db userId).store (some userId) =
          some { u with refreshToken := some t.refreshToken }) ∧
    (∀ req resp, (loginUser c db req).result = .ok resp →
      ∃ u pre post accessToken refreshToken dataUser,
        User.findOne db req.body.username req.body.email = some u ∧
        db = pre ++ u :: post ∧
        (loginUser c db req).store =
          pre ++ { u with refreshToken := some refreshToken } :: post ∧
        User.findById (loginUser c db req).store (some u._id) =
          some { u with refreshToken := some refreshToken } ∧
        resp.cookies = [("accessToken", accessToken), ("refreshToken", refreshToken)] ∧
        resp.json.data = .login (some dataUser) accessToken refreshToken ∧
        dataUser = select { u with refreshToken := some refreshToken } ∧
        dataUser.password = none ∧ dataUser.refreshToken = none) := by
  constructor
  · intro userId t h
    obtain ⟨u, pre, post, hf, _, e1, _, e3, e4, _⟩ := generateAccessAndRefreshToken_ok h
    exact ⟨u, pre, post, findById_id hf, e1, e3, e4⟩
  · intro req resp h
    unfold loginUser at h ⊢
    simp only at h ⊢
    split at h
    · simp at h
    split at h
    · simp at h
    rename_i user huser
    split at h
    · simp at h
    split at h
    · simp at h
    rename_i t ht
    have hmem : user ∈ db := List.mem_of_find?_eq_some huser
    have hfound := findById_of_mem hid hmem
    obtain ⟨u, pre, post, hf, htok, e1, _, e3, hsaved, _⟩ :=
      generateAccessAndRefreshToken_ok ht
    have hu : u = user := by
      rw [hfound] at hf
      exact (Option.some.inj hf).symm
    subst hu
    simp only [Except.ok.injEq] at h
    subst h
    rw [if_neg ‹_›, if_neg ‹_›]
    simp only
    refine ⟨u, pre, post, t.accessToken, t.refreshToken, _, huser, e1, e3, hsaved, rfl, ?_,
      rfl, rfl, rfl⟩
    rw [hsaved]
    rfl

/-- C6 at a concrete input: the login of `eve` on the store of `bob` and `eve`. -/
theorem token_issuance_persists_witness :
    ([bob, eve].map UserDoc._id).Nodup ∧
    (loginUser demo [bob, eve] eveLogin).result = .ok eveLoginResponse ∧
    ∃ u pre post accessToken refreshToken dataUser,
      User.findOne [bob, eve] eveLogin.body.username eveLogin.body.email = some u ∧
      [bob, eve] = pre ++ u :: post ∧
      (loginUser demo [bob, eve] eveLogin).store =
        pre ++ { u with refreshToken := some refreshToken } :: post ∧
      User.findById (loginUser demo [bob, eve] eveLogin).store (some u._id) =
        some { u with refreshToken := some refreshToken } ∧
      eveLoginResponse.cookies =
        [("accessToken", accessToken), ("refreshToken", refreshToken)] ∧
      eveLoginResponse.json.data = .login (some dataUser) accessToken refreshToken ∧
      dataUser = select { u with refreshToken := some refreshToken } ∧
      dataUser.password = none ∧ dataUser.refreshToken = none :=
  ⟨by decide, rfl,
   (token_issuance_persists demo [bob, eve] (by decide)).2 eveLogin eveLoginResponse rfl⟩

/-! ## refreshAccessToken -/

theorem findById_self {db : Store} {id : Option Nat} {u : UserDoc}
    (h : User.findById db id = some u) : User.findById db (some u._id) = some u := by
  cases id with
  | none => simp [User.findById] at h
  | some i =>
    have := findById_id h
    rw [this]
    exact h

/-- The value of `a || b` is a non-empty string exactly when `a` is one, or `a` is
falsy and `b` is one. -/
theorem jsOr_eq_some_iff (a b : Option String) (token : String) :
    (jsOr a b = some token ∧ token ≠ "") ↔
      ((truthy a = true ∧ a = some token) ∨
        (truthy a = false ∧ truthy b = true ∧ b = some token)) := by
  unfold jsOr
  cases ha : truthy a
  · simp only [Bool.false_eq_true, if_false, false_and, false_or, true_and]
    constructor
    · rintro ⟨h1, h2⟩
      subst h1
      exact ⟨by simpa [truthy] using h2, rfl⟩
    · rintro ⟨h1, h2⟩
      subst h2
      exact ⟨rfl, by simpa [truthy] using h1⟩
  · simp only [if_true, true_and, Bool.true_eq_false, false_and, or_false]
    constructor
    · rintro ⟨h1, _⟩
      exact h1
    · intro h1
      subst h1
      exact ⟨rfl, by simpa [truthy] using ha⟩

/-- The `try` block of `refreshAccessToken` completes exactly when the token
verifies, the user of its `_id` exists and the token is the stored one. -/
theorem refreshAccessTokenTry_ok_iff (c : Collaborators) (db : Store) (token : String) :
    (∃ resp, (refreshAccessTokenTry c db token).result = .ok resp) ↔
      ∃ payload user,
        c.jwtVerify token c.REFRESH_TOKEN_SECRET = .ok payload ∧
        User.findById db payload._id = some user ∧
        user.refreshToken = some token := by
  cases hv : c.jwtVerify token c.REFRESH_TOKEN_SECRET with
  | error m => simp [refreshAccessTokenTry, hv]
  | ok payload =>
    cases hf : User.findById db payload._id with
    | none => simp [refreshAccessTokenTry, hv, hf]
    | some user =>
      by_cases he : some token = user.refreshToken
      · have hg := generateAccessAndRefreshToken_of_found (c := c) (findById_self hf)
        constructor
        · intro _
          exact ⟨payload, user, rfl, hf, he.symm⟩
        · intro _
          simp [refreshAccessTokenTry, hv, hf, he, hg]
      · constructor
        · rintro ⟨resp, h⟩
          simp [refreshAccessTokenTry, hv, hf, he] at h
        · rintro ⟨payload1, user1, h1, h2, h3⟩
          cases h1
          rw [hf] at h2
          cases h2
          exact absurd h3.symm he

/-- When the `try` block of `refreshAccessToken` throws, the store is as it
was. -/
theorem refreshAccessTokenTry_error_store (c : Collaborators) (db : Store) (token : String)
    (e : Failure) (h : (refreshAccessTokenTry c db token).result = .error e) :
    (refreshAccessTokenTry c db token).store = db := by
  cases hv : c.jwtVerify token c.REFRESH_TOKEN_SECRET with
  | error m => simp [refreshAccessTokenTry, hv]
  | ok payload =>
    cases hf : User.findById db payload._id with
    | none => simp [refreshAccessTokenTry, hv, hf]
    | some user =>
      by_cases he : some token = user.refreshToken
      · have hg := generateAccessAndRefreshToken_of_found (c := c) (findById_self hf)
        simp [refreshAccessTokenTry, hv, hf, he, hg] at h
      · simp [refreshAccessTokenTry, hv, hf, he]

/-- C7: `refreshAccessToken` succeeds exactly when an incoming token is present
(the cookie when it is non-empty, else the body field), the token verifies under
the refresh secret, a user with the decoded `_id` exists and the token is that
user's stored refreshToken; in every other case it fails with an `ApiError` of
status 401 and the store is unchanged. -/
theorem refreshAccessToken_accepts_only_stored (c : Collaborators) (db : Store)
    (req : Request) :
    ((∃ resp, (refreshAccessToken c db req).result = .ok resp) ↔
      ∃ token payload user,
        ((truthy req.cookies.refreshToken = true ∧
            req.cookies.refreshToken = some token) ∨
          (truthy req.cookies.refreshToken = false ∧
            truthy req.body.refreshToken = true ∧ req.body.refreshToken = some token)) ∧
        c.jwtVerify token c.REFRESH_TOKEN_SECRET = .ok payload ∧
        User.findById db payload._id = some user ∧
        user.refreshToken = some token) ∧
    ((¬ ∃ resp, (refreshAccessToken c db req).result = .ok resp) →
      (∃ message,
        (refreshAccessToken c db req).result = .error (.apiError 401 message)) ∧
      (refreshAccessToken c db req).store = db) := by
  cases hj : jsOr req.cookies.refreshToken req.body.refreshToken with
  | none =>
    refine ⟨⟨?_, ?_⟩, ?_⟩
    · rintro ⟨resp, h⟩
      simp [refreshAccessToken, hj] at h
    · rintro ⟨token, _, _, ht, _⟩
      have := (jsOr_eq_some_iff _ _ token).mpr ht
      rw [hj] at this
      exact absurd this.1 (by simp)
    · intro _
      simp [refreshAccessToken, hj]
  | some tok =>
    by_cases hne : tok = ""
    · refine ⟨⟨?_, ?_⟩, ?_⟩
      · rintro ⟨resp, h⟩
        simp [refreshAccessToken, hj, hne] at h
      · rintro ⟨token, _, _, ht, _⟩
        have := (jsOr_eq_some_iff _ _ token).mpr ht
        rw [hj] at this
        have ht2 : tok = token := Option.some.inj this.1
        exact absurd (ht2 ▸ hne) this.2
      · intro _
        simp [refreshAccessToken, hj, hne]
    · have hpresent := (jsOr_eq_some_iff _ _ tok).mp ⟨hj, hne⟩
      cases hr : (refreshAccessTokenTry c db tok).result with
      | error e =>
        have hstore := refreshAccessTokenTry_error_store c db tok e hr
        have hno : ¬ ∃ resp, (refreshAccessTokenTry c db tok).result = .ok resp := by
          rintro ⟨resp, h⟩
          rw [hr] at h
          cases h
        refine ⟨⟨?_, ?_⟩, ?_⟩
        · rintro ⟨resp, h⟩
          simp [refreshAccessToken, hj, hne, hr] at h
        · rintro ⟨token, payload, user, ht, h1, h2, h3⟩
          have := (jsOr_eq_some_iff _ _ token).mpr ht
          rw [hj] at this
          have ht2 : tok = token := Option.some.inj this.1
          subst ht2
          exact absurd ((refreshAccessTokenTry_ok_iff c db tok).mpr ⟨payload, user, h1, h2, h3⟩)
            hno
        · intro _
          simp [refreshAccessToken, hj, hne, hr, rethrow401, hstore]
      | ok resp =>
        obtain ⟨payload, user, h1, h2, h3⟩ :=
          (refreshAccessTokenTry_ok_iff c db tok).mp ⟨resp, hr⟩
        have hok : (refreshAccessToken c db req).result = .ok resp := by
          simp [refreshAccessToken, hj, hne, hr]
        refine ⟨⟨fun _ => ⟨tok, payload, user, hpresent, h1, h2, h3⟩, fun _ => ⟨resp, hok⟩⟩, ?_⟩
        intro hno
        exact absurd ⟨resp, hok⟩ hno

/-- C7 at concrete inputs: the refresh with the token stored for `bob` succeeds,
the refresh with a valid token that is not the stored one fails with 401. -/
theorem refreshAccessToken_accepts_only_stored_witness :
    (∃ resp, (refreshAccessToken demo [bob, eve] bobRefresh).result = .ok resp) ∧
    ((∃ message, (refreshAccessToken demo [bob, eve] eveRefresh).result =
        .error (.apiError 401 message)) ∧
      (refreshAccessToken demo [bob, eve] eveRefresh).store = [bob, eve]) :=
  ⟨(refreshAccessToken_accepts_only_stored demo [bob, eve] bobRefresh).1.mpr
      ⟨"rt-1", { _id := some 1 }, bob, Or.inr ⟨rfl, rfl, rfl⟩, rfl, rfl, rfl⟩,
   (refreshAccessToken_accepts_only_stored demo [bob, eve] eveRefresh).2
      (by
        have hr : (refreshAccessToken demo [bob, eve] eveRefresh).result =
            .error (.apiError 401 "Refresh token is expired or used.") := rfl
        rintro ⟨resp, h⟩
        rw [hr] at h
        cases h)⟩

/-! ## verifyJWT -/

/-- On a header that starts with `Bearer `, `replace("Bearer ", "")` removes that
prefix. -/
theorem replace_bearer_of_prefix (header : String)
    (h : "Bearer ".data.isPrefixOf header.data = true) :
    replace header "Bearer " "" = dropBearer header := by
  unfold replace dropBearer
  rw [if_pos h]
  congr 1
  cases hd : header.data with
  | nil => rw [hd] at h; simp [List.isPrefixOf] at h
  | cons ch cs =>
    rw [hd] at h
    unfold replaceChars
    rw [if_pos h]
    rfl

/-- The `try` block of `verifyJWT` calls `next` exactly when the token it reads is
a non-empty string that verifies and the user of its `_id` exists. -/
theorem verifyJWTTry_next_iff (c : Collaborators) (db : Store) (req : Request) :
    (verifyJWTTry c db req).nextCalled = true ↔
      ∃ token payload user,
        accessTokenOf req = some token ∧ token ≠ "" ∧
        c.jwtVerify token c.ACCESS_TOKEN_SECRET = .ok payload ∧
        User.findById db payload._id = some user := by
  cases ht : accessTokenOf req with
  | none => simp [verifyJWTTry, ht]
  | some tok =>
    by_cases hne : tok = ""
    · simp [verifyJWTTry, ht, hne]
    · cases hv : c.jwtVerify tok c.ACCESS_TOKEN_SECRET with
      | error m => simp [verifyJWTTry, ht, hne, hv]
      | ok payload =>
        cases hf : User.findById db payload._id with
        | none => simp [verifyJWTTry, ht, hne, hv, hf]
        | some user => simp [verifyJWTTry, ht, hne, hv, hf]

/-- When the `try` block of `verifyJWT` calls `next`, `req.user` is the stored
record of the decoded `_id` without password and refreshToken, and nothing was
thrown. -/
theorem verifyJWTTry_next (c : Collaborators) (db : Store) (req : Request)
    (token : String) (payload : JwtPayload) (user : UserDoc)
    (ht : accessTokenOf req = some token) (hne : token ≠ "")
    (hv : c.jwtVerify token c.ACCESS_TOKEN_SECRET = .ok payload)
    (hf : User.findById db payload._id = some user) :
    verifyJWTTry c db req =
      { failure := none, user := some (select user), nextCalled := true } := by
  simp [verifyJWTTry, ht, hne, hv, hf]

/-- When the `try` block of `verifyJWT` does not call `next`, `req.user` is not
set and something was thrown. -/
theorem verifyJWTTry_no_next (c : Collaborators) (db : Store) (req : Request)
    (h : (verifyJWTTry c db req).nextCalled = false) :
    (verifyJWTTry c db req).user = none ∧ ∃ e, (verifyJWTTry c db req).failure = some e := by
  cases ht : accessTokenOf req with
  | none => simp [verifyJWTTry, ht]
  | some tok =>
    by_cases hne : tok = ""
    · simp [verifyJWTTry, ht, hne]
    · cases hv : c.jwtVerify tok c.ACCESS_TOKEN_SECRET with
      | error m => simp [verifyJWTTry, ht, hne, hv]
      | ok payload =>
        cases hf : User.findById db payload._id with
        | none => simp [verifyJWTTry, ht, hne, hv, hf]
        | some user => simp [verifyJWTTry, ht, hne, hv, hf] at h

/-- C8 as the code has it: `verifyJWT` calls `next`, with `req.user` the stored
record of the decoded `_id` without password and refreshToken, if and only if a
token is present (the `accessToken` cookie when it is non-empty, else the
`Authorization` header with the first occurrence of `Bearer ` removed), the token
verifies under the access secret and a user with that `_id` exists; in every
other case `next` is not called, `req.user` is not set and the failure is an
`ApiError` of status 401. -/
theorem verifyJWT_passes_iff (c : Collaborators) (db : Store) (req : Request) :
    ((verifyJWT c db req).nextCalled = true ↔
      ∃ token payload user,
        ((truthy req.cookies.accessToken = true ∧
            req.cookies.accessToken = some token) ∨
          (truthy req.cookies.accessToken = false ∧ token ≠ "" ∧
            req.authorization.map (fun h => replace h "Bearer " "") = some token)) ∧
        c.jwtVerify token c.ACCESS_TOKEN_SECRET = .ok payload ∧
        User.findById db payload._id = some user) ∧
    (∀ token payload user,
      ((truthy req.cookies.accessToken = true ∧
          req.cookies.accessToken = some token) ∨
        (truthy req.cookies.accessToken = false ∧ token ≠ "" ∧
          req.authorization.map (fun h => replace h "Bearer " "") = some token)) →
      c.jwtVerify token c.ACCESS_TOKEN_SECRET = .ok payload →
      User.findById db payload._id = some user →
      (verifyJWT c db req).nextCalled = true ∧
        (verifyJWT c db req).user = some (select user) ∧
        (select user).password = none ∧ (select user).refreshToken = none ∧
        (verifyJWT c db req).failure = none) ∧
    ((verifyJWT c db req).nextCalled = false →
      (verifyJWT c db req).user = none ∧
        ∃ message, (verifyJWT c db req).failure = some (.apiError 401 message)) := by
  have key : ∀ token : String,
      ((truthy req.cookies.accessToken = true ∧
          req.cookies.accessToken = some token) ∨
        (truthy req.cookies.accessToken = false ∧ token ≠ "" ∧
          req.authorization.map (fun h => replace h "Bearer " "") = some token)) ↔
      (accessTokenOf req = some token ∧ token ≠ "") := by
    intro token
    rw [accessTokenOf, jsOr_eq_some_iff]
    constructor
    · rintro (h | ⟨h1, h2, h3⟩)
      · exact Or.inl h
      · exact Or.inr ⟨h1, by rw [h3]; simpa [truthy] using h2, h3⟩
    · rintro (h | ⟨h1, h2, h3⟩)
      · exact Or.inl h
      · refine Or.inr ⟨h1, ?_, h3⟩
        rw [h3] at h2
        simpa [truthy] using h2
  refine ⟨?_, ?_, ?_⟩
  · show (verifyJWTTry c db req).nextCalled = true ↔ _
    rw [verifyJWTTry_next_iff]
    constructor
    · rintro ⟨token, payload, user, h1, h2, h3, h4⟩
      exact ⟨token, payload, user, (key token).mpr ⟨h1, h2⟩, h3, h4⟩
    · rintro ⟨token, payload, user, h1, h3, h4⟩
      have := (key token).mp h1
      exact ⟨token, payload, user, this.1, this.2, h3, h4⟩
  · intro token payload user h1 hv hf
    have h := (key token).mp h1
    have := verifyJWTTry_next c db req token payload user h.1 h.2 hv hf
    simp [verifyJWT, this, select]
  · intro h
    have h2 : (verifyJWTTry c db req).nextCalled = false := h
    obtain ⟨hu, e, he⟩ := verifyJWTTry_no_next c db req h2
    refine ⟨hu, ?_⟩
    simp [verifyJWT, he, rethrow401]

/-- C8 as stated fails on a header that holds `Bearer ` after its first character:
the code removes the first occurrence, reads the token `at-2` and calls `next`,
while the header has no `Bearer ` prefix to remove and, taken as it is, does not
verify. -/
theorem verifyJWT_bearer_inside_header :
    (verifyJWT demo [bob, eve] bearerInside).nextCalled = true ∧
    ¬ ∃ token payload user,
        specAccessToken bearerInside = some token ∧ token ≠ "" ∧
        demo.jwtVerify token demo.ACCESS_TOKEN_SECRET = .ok payload ∧
        User.findById [bob, eve] payload._id = some user := by
  refine ⟨rfl, ?_⟩
  rintro ⟨token, payload, user, h1, _, h3, _⟩
  have hs : specAccessToken bearerInside = some "aBearer t-2" := rfl
  rw [hs] at h1
  cases h1
  have hv : demo.jwtVerify "aBearer t-2" demo.ACCESS_TOKEN_SECRET =
      .error "jwt malformed" := rfl
  rw [hv] at h3
  cases h3

/-- C8 at concrete inputs: a request with the access token of `eve` in a `Bearer`
header passes, a request without a token fails with 401. -/
theorem verifyJWT_passes_iff_witness :
    ((verifyJWT demo [bob, eve] eveBearer).nextCalled = true ∧
      (verifyJWT demo [bob, eve] eveBearer).user = some (select eve) ∧
      (select eve).password = none ∧ (select eve).refreshToken = none ∧
      (verifyJWT demo [bob, eve] eveBearer).failure = none) ∧
    ((verifyJWT demo [bob, eve] {}).user = none ∧
      ∃ message, (verifyJWT demo [bob, eve] {}).failure = some (.apiError 401 message)) :=
  ⟨(verifyJWT_passes_iff demo [bob, eve] eveBearer).2.1 "at-2" { _id := some 2 } eve
      (Or.inr ⟨rfl, by decide, rfl⟩) rfl rfl,
   (verifyJWT_passes_iff demo [bob, eve] {}).2.2 rfl⟩

end VideoTube
